import Mathlib

/-!
Verification of the Gratipay database self-check engine
(`gratipay/models/__init__.py`): `check_db` and the five checks
`_check_balances`, `_check_no_team_balances`, `_check_tips`,
`_check_orphans`, `_check_orphans_no_tips`.

Tables are modelled as lists of rows; the SQL queries are translated
clause by clause (filters, `GROUP BY`+`SUM`, `UNION ALL`, inner joins,
`EXCEPT`, `DISTINCT ON`).  Currency amounts use exact rational
arithmetic, timestamps are integers.
-/

namespace Gratipay

/-- A row of the `exchanges` table. -/
structure Exchange where
  participant : String
  amount : ℚ
  fee : ℚ
  status : String
deriving DecidableEq

/-- A row of the `transfers` table. -/
structure Transfer where
  tipper : String
  tippee : String
  amount : ℚ
deriving DecidableEq

/-- A row of the `payments` table. -/
structure Payment where
  participant : String
  team : String
  amount : ℚ
  direction : String
deriving DecidableEq

/-- A row of the `participants` table (the stored balance snapshot). -/
structure ParticipantRow where
  username : String
  balance : ℚ
deriving DecidableEq

/-- A row of the `tips` table; the column set follows the spec's
`Pledge{source, destination, amount, timestamp}`. -/
structure Tip where
  tipper : String
  tippee : String
  mtime : Int
  amount : ℚ
deriving DecidableEq

/-- A row of the `paydays` table (only the two timestamps are read). -/
structure Payday where
  ts_start : Int
  ts_end : Int
deriving DecidableEq

/-- A row of the `teams` table (only the slug is read). -/
structure TeamRow where
  slug : String
deriving DecidableEq

/-- A row of the `elsewhere` table (only the participant is read). -/
structure ElsewhereRow where
  participant : String
deriving DecidableEq

/-- A row of the `absorptions` table (only `archived_as` is read). -/
structure AbsorptionRow where
  archived_as : String
deriving DecidableEq

/-- The database snapshot seen by one `check_db` run. -/
structure DB where
  exchanges : List Exchange
  transfers : List Transfer
  payments : List Payment
  participants : List ParticipantRow
  tips : List Tip
  paydays : List Payday
  teams : List TeamRow
  elsewhere : List ElsewhereRow
  absorptions : List AbsorptionRow
deriving DecidableEq

/-- A SQL `GROUP BY key` with aggregate `SUM(val)`: one output row per
distinct key value occurring in `rows`, paired with the sum of `val`
over that key's group. -/
def groupSum {R : Type} (key : R → String) (val : R → ℚ) (rows : List R) :
    List (String × ℚ) :=
  ((rows.map key).dedup).map
    (fun u => (u, ((rows.filter (fun r => decide (key r = u))).map val).sum))

/-- Rows satisfying `amount > 0 and (status = 'unknown' or status = 'succeeded')`
in `_check_balances`. -/
def posExchanges (db : DB) : List Exchange :=
  db.exchanges.filter
    (fun e => decide (0 < e.amount ∧ (e.status = "unknown" ∨ e.status = "succeeded")))

/-- Rows satisfying `amount < 0 and (status = 'unknown' or status <> 'failed')`
in `_check_balances`. -/
def negExchanges (db : DB) : List Exchange :=
  db.exchanges.filter
    (fun e => decide (e.amount < 0 ∧ (e.status = "unknown" ∨ e.status ≠ "failed")))

/-- Rows satisfying `direction='to-participant'`. -/
def toParticipantPayments (db : DB) : List Payment :=
  db.payments.filter (fun p => decide (p.direction = "to-participant"))

/-- Rows satisfying `direction='to-team'`. -/
def toTeamPayments (db : DB) : List Payment :=
  db.payments.filter (fun p => decide (p.direction = "to-team"))

/-- The inner `UNION ALL` of the six grouped contribution branches in
`_check_balances` (the derived table `foo`). -/
def fooRows (db : DB) : List (String × ℚ) :=
  groupSum (fun e => e.participant) (fun e => e.amount) (posExchanges db)
  ++ groupSum (fun e => e.participant) (fun e => e.amount - e.fee) (negExchanges db)
  ++ groupSum (fun t => t.tipper) (fun t => -t.amount) db.transfers
  ++ groupSum (fun p => p.participant) (fun p => p.amount) (toParticipantPayments db)
  ++ groupSum (fun p => p.participant) (fun p => -p.amount) (toTeamPayments db)
  ++ groupSum (fun t => t.tippee) (fun t => t.amount) db.transfers

/-- The derived table `foo2` of `_check_balances`:
`select username, sum(a) as expected from foo group by username`. -/
def foo2 (db : DB) : List (String × ℚ) :=
  groupSum Prod.fst Prod.snd (fooRows db)

/-- The expected balance the query computes for `u`: the sum of the `a`
values of the `foo` rows grouped under `u` (zero when `u` has no rows). -/
def expectedOf (db : DB) (u : String) : ℚ :=
  (((fooRows db).filter (fun r => decide (r.1 = u))).map Prod.snd).sum

/-- The direct signed sum of `u`'s contributions over the three event
tables, one summand per branch of the `_check_balances` union. -/
def signedSum (db : DB) (u : String) : ℚ :=
  (((posExchanges db).filter (fun e => decide (e.participant = u))).map
      (fun e => e.amount)).sum
  + (((negExchanges db).filter (fun e => decide (e.participant = u))).map
      (fun e => e.amount - e.fee)).sum
  + ((db.transfers.filter (fun t => decide (t.tipper = u))).map
      (fun t => -t.amount)).sum
  + (((toParticipantPayments db).filter (fun p => decide (p.participant = u))).map
      (fun p => p.amount)).sum
  + (((toTeamPayments db).filter (fun p => decide (p.participant = u))).map
      (fun p => -p.amount)).sum
  + ((db.transfers.filter (fun t => decide (t.tippee = u))).map
      (fun t => t.amount)).sum

/-- Username `u` owns at least one row in some branch of the `_check_balances`
union: a qualifying exchange, a transfer side, or a directional payment. -/
def hasEvents (db : DB) (u : String) : Prop :=
  (∃ e ∈ posExchanges db, e.participant = u) ∨
  (∃ e ∈ negExchanges db, e.participant = u) ∨
  (∃ t ∈ db.transfers, t.tipper = u) ∨
  (∃ p ∈ toParticipantPayments db, p.participant = u) ∨
  (∃ p ∈ toTeamPayments db, p.participant = u) ∨
  (∃ t ∈ db.transfers, t.tippee = u)

/-- The result rows of the `_check_balances` query: `foo2` inner-joined
with `participants` on the username, keeping rows with
`expected <> balance`; each row is `(username, expected, actual)`. -/
def balanceMismatches (db : DB) : List (String × ℚ × ℚ) :=
  ((foo2 db).flatMap
    (fun ue =>
      (db.participants.filter (fun p => decide (p.username = ue.1))).map
        (fun p => (p.username, ue.2, p.balance)))).filter
    (fun r => decide (r.2.1 ≠ r.2.2))

/-- The failure value carried by each check's assertion. -/
inductive CheckError where
  | conflictingBalances (rows : List (String × ℚ × ℚ))
  | teamsWithBalance (rows : List (String × ℚ))
  | conflictingTips (count : Nat)
  | missingElsewheres (rows : List String)
  | orphansWithTips (rows : List String)
deriving DecidableEq

/-- The check `_check_balances`: asserts that the mismatch query returns no rows. -/
def _check_balances (db : DB) : Except CheckError Unit :=
  if balanceMismatches db = [] then .ok ()
  else .error (.conflictingBalances (balanceMismatches db))

/-- The query `select exists (select * from paydays where ts_end < ts_start)`. -/
def paydayRunning (db : DB) : Bool :=
  db.paydays.any (fun pd => decide (pd.ts_end < pd.ts_start))

/-- The inner `UNION ALL` of the two grouped payment branches in
`_check_no_team_balances` (the derived table `foo`). -/
def teamRows (db : DB) : List (String × ℚ) :=
  groupSum (fun p => p.team) (fun p => -p.amount) (toParticipantPayments db)
  ++ groupSum (fun p => p.team) (fun p => p.amount) (toTeamPayments db)

/-- The derived table `foo2` of `_check_no_team_balances`:
`select team, sum(delta) as balance from foo group by team`. -/
def teamFoo2 (db : DB) : List (String × ℚ) :=
  groupSum Prod.fst Prod.snd (teamRows db)

/-- The balance the query computes for team `s`: the sum of the `delta`
values of the `foo` rows grouped under `s` (zero when `s` has no rows). -/
def teamBalance (db : DB) (s : String) : ℚ :=
  (((teamRows db).filter (fun r => decide (r.1 = s))).map Prod.snd).sum

/-- The value `delta = Σ(to-team amounts) − Σ(to-participant amounts)` for team `s`. -/
def teamDelta (db : DB) (s : String) : ℚ :=
  (((toTeamPayments db).filter (fun p => decide (p.team = s))).map (fun p => p.amount)).sum
  - (((toParticipantPayments db).filter (fun p => decide (p.team = s))).map
      (fun p => p.amount)).sum

/-- The result rows of the `_check_no_team_balances` query: `foo2`
inner-joined with `teams` on the slug, keeping rows with `balance <> 0`. -/
def teamsWithNonzeroBalance (db : DB) : List (String × ℚ) :=
  ((teamFoo2 db).flatMap
    (fun tb =>
      (db.teams.filter (fun t => decide (t.slug = tb.1))).map
        (fun t => (t.slug, tb.2)))).filter
    (fun r => decide (r.2 ≠ 0))

/-- The check `_check_no_team_balances`: returns early when a payday is running,
otherwise asserts that no team has a nonzero derived balance. -/
def _check_no_team_balances (db : DB) : Except CheckError Unit :=
  if paydayRunning db then .ok ()
  else if teamsWithNonzeroBalance db = [] then .ok ()
  else .error (.teamsWithBalance (teamsWithNonzeroBalance db))

/-- The subquery `SELECT DISTINCT ON (tipper, tippee, mtime) * FROM tips`: one
representative row per key.  With no further sort key the representative
is underdetermined in SQL; it is modelled as the first row per key in
log order, matching the spec's "retaining one row per key (earliest by
log order)". -/
def distinctOnKey (tips : List Tip) : List Tip :=
  ((tips.map (fun t => (t.tipper, t.tippee, t.mtime))).dedup).filterMap
    (fun k => tips.find? (fun t => decide ((t.tipper, t.tippee, t.mtime) = k)))

/-- SQL `EXCEPT` (without `ALL`): the distinct rows of the first query
that do not appear in the second. -/
def sqlExcept (q1 q2 : List Tip) : List Tip :=
  q1.dedup.filter (fun r => decide (r ∉ q2))

/-- The count computed by `_check_tips`:
`select count(*) from (select * from tips EXCEPT select distinct on
(tipper, tippee, mtime) * from tips) as foo`. -/
def conflicting_tips (db : DB) : Nat :=
  (sqlExcept db.tips (distinctOnKey db.tips)).length

/-- The check `_check_tips`: asserts the duplicate count is zero. -/
def _check_tips (db : DB) : Except CheckError Unit :=
  if conflicting_tips db = 0 then .ok ()
  else .error (.conflictingTips (conflicting_tips db))

/-- The result rows of the `_check_orphans` query: participants with no
`elsewhere` row and no `absorptions` row. -/
def orphans (db : DB) : List String :=
  (db.participants.filter
    (fun p => decide ((¬ ∃ e ∈ db.elsewhere, e.participant = p.username) ∧
                      (¬ ∃ a ∈ db.absorptions, a.archived_as = p.username)))).map
    (fun p => p.username)

/-- The check `_check_orphans`: asserts the orphan query returns no rows. -/
def _check_orphans (db : DB) : Except CheckError Unit :=
  if orphans db = [] then .ok ()
  else .error (.missingElsewheres (orphans db))

/-- Modelled from the spec: the `current_tips` database view, which is
defined in the database schema and not under `src/`; per the spec it is
the latest-by-key reduction of `tips` — for each (tipper, tippee) pair
the row with the latest `mtime` (earliest such row on a timestamp tie). -/
def current_tips (tips : List Tip) : List Tip :=
  ((tips.map (fun t => (t.tipper, t.tippee))).dedup).filterMap
    (fun k => (tips.filter (fun t => decide ((t.tipper, t.tippee) = k))).argmax
      (fun t => t.mtime))

/-- The CTE `valid_tips AS (SELECT * FROM current_tips WHERE amount > 0)`. -/
def valid_tips (db : DB) : List Tip :=
  (current_tips db.tips).filter (fun t => decide (0 < t.amount))

/-- The result rows of the `_check_orphans_no_tips` query: usernames
appearing as tipper or tippee of a valid tip, with no `elsewhere` row. -/
def orphans_with_tips (db : DB) : List String :=
  (((valid_tips db).map (fun t => t.tipper)
    ++ (valid_tips db).map (fun t => t.tippee)).dedup).filter
    (fun u => decide (¬ ∃ e ∈ db.elsewhere, e.participant = u))

/-- The check `_check_orphans_no_tips`: asserts the query returns no rows. -/
def _check_orphans_no_tips (db : DB) : Except CheckError Unit :=
  if orphans_with_tips db = [] then .ok ()
  else .error (.orphansWithTips (orphans_with_tips db))

/-- The runner `check_db`: runs the five self checks in order; a failing assertion
propagates immediately. -/
def check_db (db : DB) : Except CheckError Unit := do
  _check_balances db
  _check_no_team_balances db
  _check_tips db
  _check_orphans db
  _check_orphans_no_tips db

/-! Concrete database snapshots used to instantiate the theorems below. -/

/-- The empty snapshot. -/
def emptyDB : DB := ⟨[], [], [], [], [], [], [], [], []⟩

/-- One participant with stored balance 5 and no events of any kind. -/
def dbNoEvents : DB := { emptyDB with participants := [⟨"bob", 5⟩] }

/-- A snapshot violating two distinct checks at once: bob's stored
balance (5) disagrees with the event-derived balance (10), and the tips
table holds two rows sharing the (tipper, tippee, mtime) key. -/
def dbTwoFailures : DB :=
  { emptyDB with
      participants := [⟨"bob", 5⟩]
      exchanges := [⟨"bob", 10, 0, "succeeded"⟩]
      tips := [⟨"alice", "bob", 1, 3⟩, ⟨"alice", "bob", 1, 7⟩] }

/-- Two fully identical tip rows (all columns equal). -/
def dbIdenticalTips : DB :=
  { emptyDB with tips := [⟨"alice", "bob", 1, 3⟩, ⟨"alice", "bob", 1, 3⟩] }

/-- A payday row with `ts_end < ts_start` (settlement in progress) next
to a wildly unbalanced team payment. -/
def dbPaydayOpen : DB :=
  { emptyDB with
      paydays := [⟨10, 0⟩]
      payments := [⟨"p", "T", 100, "to-team"⟩]
      teams := [⟨"T"⟩] }

/-- A single unpaired to-team payment of 100, outside any settlement. -/
def dbUnpaired : DB :=
  { emptyDB with
      payments := [⟨"p", "T", 100, "to-team"⟩]
      teams := [⟨"T"⟩] }

/-- The spec's end-to-end scenario: one exchange of +500 (succeeded),
one transfer of 50 with P as tipper, one to-participant payment of 20,
and the given stored balance for P. -/
def dbScenario (stored : ℚ) : DB :=
  { emptyDB with
      participants := [⟨"P", stored⟩]
      exchanges := [⟨"P", 500, 0, "succeeded"⟩]
      transfers := [⟨"P", "X", 50⟩]
      payments := [⟨"P", "T", 20, "to-participant"⟩] }

/-- One participant with no elsewhere account and no absorption record. -/
def dbOrphan : DB := { emptyDB with participants := [⟨"bob", 0⟩] }

/-- An unbalanced payment naming a team with no row in `teams`. -/
def dbGhostTeam : DB := { emptyDB with payments := [⟨"p", "ghost", 100, "to-team"⟩] }

/-- A snapshot that is empty apart from the given tips. -/
def dbOfTips (l : List Tip) : DB := { emptyDB with tips := l }

/-! General lemmas about the query building blocks. -/

/-- Filtering a duplicate-free list down to one value yields that value's
singleton when the value occurs, and the empty list otherwise. -/
lemma filter_eq_self_singleton {l : List String} (h : l.Nodup) (u : String) :
    l.filter (fun v => decide (v = u)) = if u ∈ l then [u] else [] := by
  induction l with
  | nil => simp
  | cons a l ih =>
    rcases List.nodup_cons.mp h with ⟨ha, hl⟩
    by_cases hau : a = u
    · subst hau
      simp [List.filter_cons, ih hl, ha]
    · simp [List.filter_cons, hau, ih hl, List.mem_cons, Ne.symm hau]

/-- Summing the values of the `groupSum` rows grouped under `u` gives the
direct sum of `val` over the rows of `u`'s group. -/
lemma groupSum_filter_sum {R : Type} (key : R → String) (val : R → ℚ) (rows : List R)
    (u : String) :
    (((groupSum key val rows).filter (fun r => decide (r.1 = u))).map Prod.snd).sum
      = ((rows.filter (fun r => decide (key r = u))).map val).sum := by
  unfold groupSum
  rw [List.filter_map]
  have hcomp : ((fun r : String × ℚ => decide (r.1 = u)) ∘
      (fun w => (w, ((rows.filter (fun r => decide (key r = w))).map val).sum)))
      = fun w => decide (w = u) := rfl
  rw [hcomp, filter_eq_self_singleton (List.nodup_dedup _) u]
  by_cases hu : u ∈ (rows.map key).dedup
  · simp [hu]
  · have hnil : rows.filter (fun r => decide (key r = u)) = [] := by
      refine List.filter_eq_nil_iff.mpr (fun r hr => ?_)
      simp only [decide_eq_true_eq]
      intro hk
      exact hu (List.mem_dedup.mpr (List.mem_map.mpr ⟨r, hr, hk⟩))
    simp [hu, hnil]

/-- Membership in a `groupSum` result characterised by the source rows. -/
lemma mem_groupSum {R : Type} (key : R → String) (val : R → ℚ) (rows : List R)
    (x : String × ℚ) :
    x ∈ groupSum key val rows ↔
      ((∃ r ∈ rows, key r = x.1) ∧
       x.2 = ((rows.filter (fun r => decide (key r = x.1))).map val).sum) := by
  rcases x with ⟨u, q⟩
  unfold groupSum
  simp only [List.mem_map, List.mem_dedup, Prod.mk.injEq]
  constructor
  · rintro ⟨w, hw, rfl, rfl⟩
    exact ⟨hw, rfl⟩
  · rintro ⟨⟨r, hr, hk⟩, hq⟩
    exact ⟨u, ⟨r, hr, hk⟩, rfl, hq.symm⟩

/-- The keys reached by a `groupSum` are exactly the keys of the source rows. -/
lemma groupSum_keys {R : Type} (key : R → String) (val : R → ℚ) (rows : List R)
    (u : String) :
    (∃ x, x ∈ groupSum key val rows ∧ x.1 = u) ↔ ∃ r ∈ rows, key r = u := by
  constructor
  · rintro ⟨x, hx, rfl⟩
    exact ((mem_groupSum key val rows x).mp hx).1
  · rintro ⟨r, hr, hk⟩
    exact ⟨(u, ((rows.filter (fun s => decide (key s = u))).map val).sum),
      (mem_groupSum key val rows _).mpr ⟨⟨r, hr, hk⟩, rfl⟩, rfl⟩

/-- Negating the mapped value negates the mapped sum. -/
lemma sum_map_neg {R : Type} (f : R → ℚ) (l : List R) :
    (l.map (fun r => -(f r))).sum = -((l.map f).sum) := by
  induction l with
  | nil => simp
  | cons a l ih => simp [ih]; ring

/-! Lemmas about `_check_balances`. -/

/-- The grouped double aggregation of the balance query computes the
direct signed sum over the three event tables. -/
lemma expectedOf_eq_signedSum (db : DB) (u : String) :
    expectedOf db u = signedSum db u := by
  unfold expectedOf fooRows signedSum
  simp only [List.filter_append, List.map_append, List.sum_append]
  rw [groupSum_filter_sum, groupSum_filter_sum, groupSum_filter_sum,
      groupSum_filter_sum, groupSum_filter_sum, groupSum_filter_sum]

/-- A username is grouped by the balance query iff it owns an event row. -/
lemma fooRows_key_iff_hasEvents (db : DB) (u : String) :
    (∃ x, x ∈ fooRows db ∧ x.1 = u) ↔ hasEvents db u := by
  unfold fooRows hasEvents
  simp only [List.mem_append, or_and_right, exists_or]
  rw [groupSum_keys, groupSum_keys, groupSum_keys, groupSum_keys,
      groupSum_keys, groupSum_keys]
  simp [or_assoc]

/-- Membership in the balance-mismatch result set, characterised by the
source tables: the username owns an event row, the reported expected
value is the grouped sum, a participant row carries the reported actual
balance, and the two differ. -/
lemma mem_balanceMismatches (db : DB) (u : String) (q a : ℚ) :
    (u, q, a) ∈ balanceMismatches db ↔
      ((∃ x, x ∈ fooRows db ∧ x.1 = u) ∧ q = expectedOf db u ∧
       (∃ p ∈ db.participants, p.username = u ∧ p.balance = a) ∧ q ≠ a) := by
  unfold balanceMismatches foo2
  simp only [List.mem_filter, List.mem_flatMap, List.mem_map, decide_eq_true_eq]
  constructor
  · rintro ⟨⟨ue, hue, p, ⟨hp, hpu⟩, heq⟩, hne⟩
    injection heq with h1 h23
    injection h23 with h2 h3
    subst h1; subst h2; subst h3
    rcases (mem_groupSum _ _ _ ue).mp hue with ⟨hkey, hval⟩
    refine ⟨?_, ?_, ⟨p, hp, rfl, rfl⟩, hne⟩
    · rcases hkey with ⟨x, hx, hk⟩
      exact ⟨x, hx, hk.trans hpu.symm⟩
    · rw [hval]
      unfold expectedOf
      rw [hpu]
  · rintro ⟨hkey, hq, ⟨p, hp, hpu, hpb⟩, hne⟩
    refine ⟨⟨(u, q), ?_, p, ⟨hp, hpu⟩, by rw [hpu, hpb]⟩, hne⟩
    exact (mem_groupSum _ _ _ (u, q)).mpr ⟨hkey, hq⟩

/-! Lemmas about `_check_no_team_balances`. -/

/-- The grouped double aggregation of the team query computes exactly
`Σ(to-team amounts) − Σ(to-participant amounts)`. -/
lemma teamBalance_eq_teamDelta (db : DB) (s : String) :
    teamBalance db s = teamDelta db s := by
  unfold teamBalance teamRows teamDelta
  simp only [List.filter_append, List.map_append, List.sum_append]
  rw [groupSum_filter_sum, groupSum_filter_sum, sum_map_neg]
  ring

/-- A slug is grouped by the team query iff it owns a directional payment. -/
lemma teamRows_key_iff (db : DB) (s : String) :
    (∃ x, x ∈ teamRows db ∧ x.1 = s) ↔
      ((∃ p ∈ toParticipantPayments db, p.team = s) ∨
       (∃ p ∈ toTeamPayments db, p.team = s)) := by
  unfold teamRows
  simp only [List.mem_append, or_and_right, exists_or]
  rw [groupSum_keys, groupSum_keys]

/-- A team with no directional payments has delta zero, contrapositively. -/
lemma teamRows_key_of_delta_ne (db : DB) (s : String) (h : teamDelta db s ≠ 0) :
    ∃ x, x ∈ teamRows db ∧ x.1 = s := by
  by_contra hn
  rw [teamRows_key_iff] at hn
  push_neg at hn
  apply h
  unfold teamDelta
  have e1 : (toTeamPayments db).filter (fun p => decide (p.team = s)) = [] := by
    refine List.filter_eq_nil_iff.mpr (fun r hr => ?_)
    simp only [decide_eq_true_eq]
    exact hn.2 r hr
  have e2 : (toParticipantPayments db).filter (fun p => decide (p.team = s)) = [] := by
    refine List.filter_eq_nil_iff.mpr (fun r hr => ?_)
    simp only [decide_eq_true_eq]
    exact hn.1 r hr
  rw [e1, e2]
  simp

/-- Membership in the nonzero-team-balance result set, characterised by
the source tables. -/
lemma mem_teamsWithNonzeroBalance (db : DB) (s : String) (d : ℚ) :
    (s, d) ∈ teamsWithNonzeroBalance db ↔
      ((∃ x, x ∈ teamRows db ∧ x.1 = s) ∧ d = teamBalance db s ∧
       (∃ t ∈ db.teams, t.slug = s) ∧ d ≠ 0) := by
  unfold teamsWithNonzeroBalance teamFoo2
  simp only [List.mem_filter, List.mem_flatMap, List.mem_map, decide_eq_true_eq]
  constructor
  · rintro ⟨⟨tb, htb, t, ⟨ht, hts⟩, heq⟩, hne⟩
    injection heq with h1 h2
    subst h1; subst h2
    rcases (mem_groupSum _ _ _ tb).mp htb with ⟨hkey, hval⟩
    refine ⟨?_, ?_, ⟨t, ht, rfl⟩, hne⟩
    · rcases hkey with ⟨x, hx, hk⟩
      exact ⟨x, hx, hk.trans hts.symm⟩
    · rw [hval]
      unfold teamBalance
      rw [hts]
  · rintro ⟨hkey, hd, ⟨t, ht, hts⟩, hne⟩
    refine ⟨⟨(s, d), ?_, t, ⟨ht, hts⟩, by rw [hts]⟩, hne⟩
    exact (mem_groupSum _ _ _ (s, d)).mpr ⟨hkey, hd⟩

/-! Lemmas about `_check_orphans` and the runner. -/

/-- Counting a value equals measuring the filter to that value. -/
lemma count_eq_filter_decide (l : List String) (u : String) :
    l.count u = (l.filter (fun v => decide (v = u))).length := by
  induction l with
  | nil => simp
  | cons a l ih =>
    by_cases h : a = u <;>
      simp [List.count_cons, List.filter_cons, h, ih]

/-- Sequencing two checks succeeds iff both succeed. -/
lemma except_seq_ok (e1 : Except CheckError Unit) (f : Unit → Except CheckError Unit) :
    (e1 >>= f) = .ok () ↔ (e1 = .ok () ∧ f () = .ok ()) := by
  cases e1 with
  | error c => simp [Bind.bind, Except.bind]
  | ok u => cases u; simp [Bind.bind, Except.bind]

/-- Sequencing after a failed check propagates the failure. -/
lemma except_seq_error (c : CheckError) (f : Unit → Except CheckError Unit) :
    ((Except.error c : Except CheckError Unit) >>= f) = .error c := rfl

/-- The check `_check_balances` succeeds iff the mismatch query is empty. -/
lemma check_balances_ok_iff (db : DB) :
    _check_balances db = .ok () ↔ balanceMismatches db = [] := by
  unfold _check_balances
  by_cases hb : balanceMismatches db = [] <;> simp [hb]

/-- The check `_check_no_team_balances` succeeds iff a payday is running or the
nonzero-balance query is empty. -/
lemma check_no_team_balances_ok_iff (db : DB) :
    _check_no_team_balances db = .ok () ↔
      (paydayRunning db = true ∨ teamsWithNonzeroBalance db = []) := by
  unfold _check_no_team_balances
  by_cases hp : paydayRunning db <;> by_cases ht : teamsWithNonzeroBalance db = [] <;>
    simp [hp, ht]

/-- The check `_check_tips` succeeds iff the duplicate count is zero. -/
lemma check_tips_ok_iff (db : DB) :
    _check_tips db = .ok () ↔ conflicting_tips db = 0 := by
  unfold _check_tips
  by_cases hc : conflicting_tips db = 0 <;> simp [hc]

/-- The check `_check_orphans` succeeds iff the orphan query is empty. -/
lemma check_orphans_ok_iff (db : DB) :
    _check_orphans db = .ok () ↔ orphans db = [] := by
  unfold _check_orphans
  by_cases ho : orphans db = [] <;> simp [ho]

/-- The check `_check_orphans_no_tips` succeeds iff its query is empty. -/
lemma check_orphans_no_tips_ok_iff (db : DB) :
    _check_orphans_no_tips db = .ok () ↔ orphans_with_tips db = [] := by
  unfold _check_orphans_no_tips
  by_cases ho : orphans_with_tips db = [] <;> simp [ho]

/-- The runner `check_db` succeeds iff every one of the five checks finds nothing. -/
lemma check_db_ok_iff (db : DB) :
    check_db db = .ok () ↔
      (balanceMismatches db = [] ∧
       (paydayRunning db = true ∨ teamsWithNonzeroBalance db = []) ∧
       conflicting_tips db = 0 ∧ orphans db = [] ∧ orphans_with_tips db = []) := by
  unfold check_db
  rw [except_seq_ok, except_seq_ok, except_seq_ok, except_seq_ok,
      check_balances_ok_iff, check_no_team_balances_ok_iff, check_tips_ok_iff,
      check_orphans_ok_iff, check_orphans_no_tips_ok_iff]

/-! Claim C1. -/

/-- C1 counterexample: participant bob has a nonzero stored balance (5)
and no events at all, so the claim demands a BalanceMismatch with
expected 0 and actual 5; the balance query inner-joins `participants`
against the event-derived rows and reports nothing. -/
theorem c1_counterexample :
    dbNoEvents.participants = [⟨"bob", 5⟩] ∧ expectedOf dbNoEvents "bob" = 0 ∧
    (0 : ℚ) ≠ 5 ∧ balanceMismatches dbNoEvents = [] := by
  refine ⟨rfl, by with_unfolding_all rfl, by norm_num, by with_unfolding_all rfl⟩

/-- C1 amended: for a stored identity, a BalanceMismatch is emitted iff
the identity has at least one qualifying event row and its recomputed
expected balance differs from the stored balance; an identity with no
events is never reported, whatever its stored balance. -/
theorem c1_mismatch_reported_iff (db : DB) (u : String) (bal : ℚ)
    (h : db.participants.filter (fun p => decide (p.username = u)) = [⟨u, bal⟩]) :
    ((∃ q a, (u, q, a) ∈ balanceMismatches db) ↔
      (hasEvents db u ∧ expectedOf db u ≠ bal)) ∧
    (¬ hasEvents db u → ∀ q a, (u, q, a) ∉ balanceMismatches db) := by
  have hmem : (⟨u, bal⟩ : ParticipantRow) ∈ db.participants := by
    have : (⟨u, bal⟩ : ParticipantRow) ∈
        db.participants.filter (fun p => decide (p.username = u)) := by
      rw [h]; exact List.mem_singleton_self _
    exact List.mem_of_mem_filter this
  have hiff : (∃ q a, (u, q, a) ∈ balanceMismatches db) ↔
      (hasEvents db u ∧ expectedOf db u ≠ bal) := by
    constructor
    · rintro ⟨q, a, hm⟩
      rcases (mem_balanceMismatches db u q a).mp hm with ⟨hkey, hq, ⟨p, hp, hpu, hpb⟩, hne⟩
      have hpfil : p ∈ db.participants.filter (fun r => decide (r.username = u)) :=
        List.mem_filter.mpr ⟨hp, by simp [hpu]⟩
      rw [h] at hpfil
      have hpeq : p = ⟨u, bal⟩ := List.mem_singleton.mp hpfil
      refine ⟨(fooRows_key_iff_hasEvents db u).mp hkey, ?_⟩
      rw [← hq]
      have hba : bal = a := by rw [← hpb, hpeq]
      rw [← hba] at hne
      exact hne
    · rintro ⟨he, hne⟩
      exact ⟨expectedOf db u, bal,
        (mem_balanceMismatches db u (expectedOf db u) bal).mpr
          ⟨(fooRows_key_iff_hasEvents db u).mpr he, rfl, ⟨⟨u, bal⟩, hmem, rfl, rfl⟩, hne⟩⟩
  exact ⟨hiff, fun hno q a hm => hno (hiff.mp ⟨q, a, hm⟩).1⟩

/-- C1 witness: in `dbTwoFailures` bob is stored with balance 5,
has one qualifying exchange, and is indeed reported. -/
theorem c1_witness :
    dbTwoFailures.participants.filter (fun p => decide (p.username = "bob"))
      = [⟨"bob", 5⟩] ∧
    (∃ q a, ("bob", q, a) ∈ balanceMismatches dbTwoFailures) := by
  have h : dbTwoFailures.participants.filter (fun p => decide (p.username = "bob"))
      = [⟨"bob", 5⟩] := by with_unfolding_all rfl
  refine ⟨h, ((c1_mismatch_reported_iff dbTwoFailures "bob" 5 h).1).mpr ⟨?_, ?_⟩⟩
  · refine Or.inl ⟨⟨"bob", 10, 0, "succeeded"⟩, ?_, rfl⟩
    with_unfolding_all exact List.Mem.head _
  · have he : expectedOf dbTwoFailures "bob" = 10 := by with_unfolding_all rfl
    rw [he]; norm_num

/-! Claim C2. -/

/-- C2 counterexample: `dbTwoFailures` violates both the balance check
and the tips check, yet a single `check_db` run reports only the first
failing check's rows — the duplicate-tip violation is absent from the
outcome, so the runner does not aggregate every violation found. -/
theorem c2_counterexample :
    conflicting_tips dbTwoFailures = 1 ∧
    check_db dbTwoFailures = .error (.conflictingBalances [("bob", 10, 5)]) := by
  exact ⟨by with_unfolding_all rfl, by with_unfolding_all rfl⟩

/-- C2 amended: `check_db` runs the five checks in a fixed order and
stops at the first failing check, reporting only that check's
violations; it succeeds iff no check finds a violation (the team check
counting only outside a settlement window). -/
theorem c2_first_failure_reported (db : DB) :
    (check_db db = .ok () ↔
      (balanceMismatches db = [] ∧
       (paydayRunning db = true ∨ teamsWithNonzeroBalance db = []) ∧
       conflicting_tips db = 0 ∧ orphans db = [] ∧ orphans_with_tips db = [])) ∧
    (balanceMismatches db ≠ [] →
      check_db db = .error (.conflictingBalances (balanceMismatches db))) := by
  refine ⟨check_db_ok_iff db, fun hb => ?_⟩
  unfold check_db _check_balances
  simp [hb, Bind.bind, Except.bind]

/-- C2 witness: the fail-fast branch applied to `dbTwoFailures`. -/
theorem c2_witness :
    balanceMismatches dbTwoFailures ≠ [] ∧
    check_db dbTwoFailures
      = .error (.conflictingBalances (balanceMismatches dbTwoFailures)) := by
  have hb : balanceMismatches dbTwoFailures ≠ [] := by
    have hval : balanceMismatches dbTwoFailures = [("bob", 10, 5)] := by
      with_unfolding_all rfl
    rw [hval]; simp
  exact ⟨hb, (c2_first_failure_reported dbTwoFailures).2 hb⟩

/-! Claim C3. -/

/-- C3 counterexample: two fully identical pledge rows share the
(tipper, tippee, mtime) key, so the claim demands a duplicate count of
1; SQL `EXCEPT` works on distinct rows, so the query counts 0. -/
theorem c3_counterexample :
    dbIdenticalTips.tips = [⟨"alice", "bob", 1, 3⟩, ⟨"alice", "bob", 1, 3⟩] ∧
    conflicting_tips dbIdenticalTips = 0 := by
  exact ⟨rfl, by with_unfolding_all rfl⟩

/-- C3 amended: for a pledge relation of exactly two rows sharing the
(tipper, tippee, mtime) key, the duplicate count is 1 when the rows
differ in some remaining column and 0 when they are fully identical
(`EXCEPT` deduplicates full rows). -/
theorem c3_two_rows_sharing_key (t1 t2 : Tip)
    (h1 : t1.tipper = t2.tipper) (h2 : t1.tippee = t2.tippee)
    (h3 : t1.mtime = t2.mtime) :
    conflicting_tips (dbOfTips [t1, t2]) = if t1 = t2 then 0 else 1 := by
  unfold conflicting_tips sqlExcept distinctOnKey dbOfTips emptyDB
  by_cases he : t1 = t2
  · subst he
    simp
  · simp [h1, h2, h3, he, List.dedup_cons_of_not_mem, Ne.symm he]

/-- C3 witness: two rows sharing the key but differing in amount give
a duplicate count of 1. -/
theorem c3_witness :
    ((⟨"alice", "bob", 1, 3⟩ : Tip).tipper = (⟨"alice", "bob", 1, 7⟩ : Tip).tipper) ∧
    ((⟨"alice", "bob", 1, 3⟩ : Tip).tippee = (⟨"alice", "bob", 1, 7⟩ : Tip).tippee) ∧
    ((⟨"alice", "bob", 1, 3⟩ : Tip).mtime = (⟨"alice", "bob", 1, 7⟩ : Tip).mtime) ∧
    conflicting_tips (dbOfTips [⟨"alice", "bob", 1, 3⟩, ⟨"alice", "bob", 1, 7⟩])
      = if (⟨"alice", "bob", 1, 3⟩ : Tip) = ⟨"alice", "bob", 1, 7⟩ then 0 else 1 :=
  ⟨rfl, rfl, rfl, c3_two_rows_sharing_key _ _ rfl rfl rfl⟩

/-! Claim C4. -/

/-- C4: when some payday row has its end-timestamp before its
start-timestamp, `_check_no_team_balances` returns without reporting
anything, whatever the payments look like, and the paydays table has no
effect on any of the other four checks. -/
theorem c4_settlement_suppresses_team_check (db : DB) (h : paydayRunning db = true) :
    _check_no_team_balances db = .ok () ∧
    (∀ ps, _check_balances { db with paydays := ps } = _check_balances db) ∧
    (∀ ps, _check_tips { db with paydays := ps } = _check_tips db) ∧
    (∀ ps, _check_orphans { db with paydays := ps } = _check_orphans db) ∧
    (∀ ps, _check_orphans_no_tips { db with paydays := ps }
      = _check_orphans_no_tips db) := by
  refine ⟨?_, fun ps => rfl, fun ps => rfl, fun ps => rfl, fun ps => rfl⟩
  unfold _check_no_team_balances
  rw [h]
  simp

/-- C4 witness: an open payday next to a wildly unbalanced team payment
still yields a silent team check. -/
theorem c4_witness :
    paydayRunning dbPaydayOpen = true ∧
    teamDelta dbPaydayOpen "T" = 100 ∧
    _check_no_team_balances dbPaydayOpen = .ok () := by
  refine ⟨by with_unfolding_all rfl, by with_unfolding_all rfl, ?_⟩
  exact (c4_settlement_suppresses_team_check dbPaydayOpen (by with_unfolding_all rfl)).1

/-! Claim C5. -/

/-- C5: outside a settlement window, a team present in `teams` is
reported with value `d` iff `d` is the team's delta
`Σ(to-team) − Σ(to-participant)` and that delta is nonzero; the check
fails exactly when some such team exists. -/
theorem c5_team_delta_reported_iff (db : DB) (s : String) (d : ℚ)
    (hpay : paydayRunning db = false)
    (hteam : db.teams.filter (fun t => decide (t.slug = s)) = [⟨s⟩]) :
    ((s, d) ∈ teamsWithNonzeroBalance db ↔ (d = teamDelta db s ∧ d ≠ 0)) ∧
    (_check_no_team_balances db = .ok () ↔ teamsWithNonzeroBalance db = []) := by
  constructor
  · constructor
    · intro hm
      rcases (mem_teamsWithNonzeroBalance db s d).mp hm with ⟨-, hd, -, hne⟩
      exact ⟨hd.trans (teamBalance_eq_teamDelta db s), hne⟩
    · rintro ⟨hd, hne⟩
      have hmem : (⟨s⟩ : TeamRow) ∈ db.teams := by
        have : (⟨s⟩ : TeamRow) ∈ db.teams.filter (fun t => decide (t.slug = s)) := by
          rw [hteam]; exact List.mem_singleton_self _
        exact List.mem_of_mem_filter this
      refine (mem_teamsWithNonzeroBalance db s d).mpr
        ⟨teamRows_key_of_delta_ne db s (fun hc => hne (by rw [hd, hc])), ?_,
         ⟨⟨s⟩, hmem, rfl⟩, hne⟩
      exact hd.trans (teamBalance_eq_teamDelta db s).symm
  · rw [check_no_team_balances_ok_iff, hpay]
    simp

/-- C5 witness: a single unpaired to-team payment of 100 is reported
with delta 100. -/
theorem c5_witness :
    paydayRunning dbUnpaired = false ∧
    dbUnpaired.teams.filter (fun t => decide (t.slug = "T")) = [⟨"T"⟩] ∧
    teamDelta dbUnpaired "T" = 100 ∧
    ("T", (100 : ℚ)) ∈ teamsWithNonzeroBalance dbUnpaired := by
  have hpay : paydayRunning dbUnpaired = false := by with_unfolding_all rfl
  have hteam : dbUnpaired.teams.filter (fun t => decide (t.slug = "T")) = [⟨"T"⟩] := by
    with_unfolding_all rfl
  have hdelta : teamDelta dbUnpaired "T" = 100 := by with_unfolding_all rfl
  refine ⟨hpay, hteam, hdelta, ?_⟩
  exact ((c5_team_delta_reported_iff dbUnpaired "T" 100 hpay hteam).1).mpr
    ⟨hdelta.symm, by norm_num⟩

/-! Claim C6. -/

/-- C6: prepending an exchange with negative amount changes the
recomputed expected balance of its participant by `amount − fee` iff the
status is not `failed` (unknown, succeeded and any other status all
count), and changes nothing otherwise. -/
theorem c6_negative_exchange_contribution (db : DB) (e : Exchange) (u : String)
    (h : e.amount < 0) :
    expectedOf { db with exchanges := e :: db.exchanges } u =
      expectedOf db u +
        (if e.participant = u ∧ e.status ≠ "failed" then e.amount - e.fee else 0) := by
  rw [expectedOf_eq_signedSum, expectedOf_eq_signedSum]
  have hnotpos : ¬ (0 < e.amount ∧ (e.status = "unknown" ∨ e.status = "succeeded")) :=
    fun hc => absurd hc.1 (not_lt.mpr (le_of_lt h))
  by_cases hs : e.status = "failed"
  · have hnotneg : ¬ (e.amount < 0 ∧ (e.status = "unknown" ∨ e.status ≠ "failed")) := by
      rintro ⟨-, hc | hc⟩
      · rw [hs] at hc; simp at hc
      · exact hc hs
    unfold signedSum posExchanges negExchanges toParticipantPayments toTeamPayments
    simp [List.filter_cons, hnotpos, hnotneg, hs]
  · by_cases hu : e.participant = u
    · unfold signedSum posExchanges negExchanges toParticipantPayments toTeamPayments
      simp [List.filter_cons, hnotpos, hs, hu, h]
      ring
    · unfold signedSum posExchanges negExchanges toParticipantPayments toTeamPayments
      simp [List.filter_cons, hnotpos, hs, hu, h]

/-- C6 witness: a withdrawn exchange of −10 with fee 2 and status
`other` moves the expected balance by −12. -/
theorem c6_witness :
    ((-10 : ℚ) < 0) ∧
    expectedOf { emptyDB with exchanges := [⟨"P", -10, 2, "other"⟩] } "P" =
      expectedOf emptyDB "P" +
        (if ("P" : String) = "P" ∧ ("other" : String) ≠ "failed"
         then (-10 : ℚ) - 2 else 0) := by
  refine ⟨by norm_num, ?_⟩
  exact c6_negative_exchange_contribution emptyDB ⟨"P", -10, 2, "other"⟩ "P" (by norm_num)

/-! Claim C7. -/

/-- C7: in the end-to-end scenario (one exchange of +500 succeeded, one
transfer of 50 with P as tipper, one to-participant payment of 20) the
recomputed expected balance of P is exactly 470; with stored balance 470
the balance query reports nothing, with stored balance 450 it reports
exactly the mismatch (P, 470, 450). -/
theorem c7_e2e_scenario :
    expectedOf (dbScenario 470) "P" = 470 ∧
    balanceMismatches (dbScenario 470) = [] ∧
    balanceMismatches (dbScenario 450) = [("P", 470, 450)] := by
  refine ⟨?_, ?_, ?_⟩ <;> with_unfolding_all rfl

/-! Claim C8. -/

/-- C8: a stored participant is reported by the orphan query exactly
once iff it has no `elsewhere` row and no `absorptions` row; adding
either kind of row for it removes the report. -/
theorem c8_orphan_reported_iff (db : DB) (u : String) (bal : ℚ)
    (h : db.participants.filter (fun p => decide (p.username = u)) = [⟨u, bal⟩]) :
    ((orphans db).count u =
      (if (¬ ∃ e ∈ db.elsewhere, e.participant = u) ∧
          (¬ ∃ a ∈ db.absorptions, a.archived_as = u) then 1 else 0)) ∧
    u ∉ orphans { db with elsewhere := ⟨u⟩ :: db.elsewhere } ∧
    u ∉ orphans { db with absorptions := ⟨u⟩ :: db.absorptions } := by
  refine ⟨?_, ?_, ?_⟩
  · rw [count_eq_filter_decide]
    unfold orphans
    rw [List.filter_map]
    have hcomp : ((fun v => decide (v = u)) ∘ (fun p : ParticipantRow => p.username))
        = fun p : ParticipantRow => decide (p.username = u) := rfl
    rw [hcomp, List.length_map, List.filter_comm, h]
    simp only [List.filter_cons, List.filter_nil, decide_eq_true_eq]
    by_cases hc : (¬ ∃ e ∈ db.elsewhere, e.participant = u) ∧
        (¬ ∃ a ∈ db.absorptions, a.archived_as = u)
    · rw [if_pos hc, if_pos hc]
      rfl
    · rw [if_neg hc, if_neg hc]
      rfl
  · intro hu
    unfold orphans at hu
    rcases List.mem_map.mp hu with ⟨p, hp, hpu⟩
    rcases List.mem_filter.mp hp with ⟨-, hq⟩
    rw [decide_eq_true_eq] at hq
    exact hq.1 ⟨⟨u⟩, List.mem_cons_self _ _, hpu.symm⟩
  · intro hu
    unfold orphans at hu
    rcases List.mem_map.mp hu with ⟨p, hp, hpu⟩
    rcases List.mem_filter.mp hp with ⟨-, hq⟩
    rw [decide_eq_true_eq] at hq
    exact hq.2 ⟨⟨u⟩, List.mem_cons_self _ _, hpu.symm⟩

/-- C8 witness: bob with no link and no absorption is reported exactly
once, and adding a link removes the report. -/
theorem c8_witness :
    dbOrphan.participants.filter (fun p => decide (p.username = "bob"))
      = [⟨"bob", 0⟩] ∧
    (orphans dbOrphan).count "bob" = 1 ∧
    "bob" ∉ orphans { dbOrphan with elsewhere := [⟨"bob"⟩] } := by
  have h : dbOrphan.participants.filter (fun p => decide (p.username = "bob"))
      = [⟨"bob", 0⟩] := by with_unfolding_all rfl
  refine ⟨h, ?_, (c8_orphan_reported_iff dbOrphan "bob" 0 h).2.1⟩
  rw [(c8_orphan_reported_iff dbOrphan "bob" 0 h).1]
  simp [dbOrphan, emptyDB]

/-! Claim C9. -/

/-- C9: prepending an exchange with amount exactly 0 changes no
participant's recomputed expected balance, leaves the mismatch result
rows unchanged, and leaves the outcome of `_check_balances` unchanged,
whatever the exchange's status. -/
theorem c9_zero_exchange_no_effect (db : DB) (e : Exchange) (h : e.amount = 0) :
    (∀ u, expectedOf { db with exchanges := e :: db.exchanges } u = expectedOf db u) ∧
    balanceMismatches { db with exchanges := e :: db.exchanges }
      = balanceMismatches db ∧
    _check_balances { db with exchanges := e :: db.exchanges } = _check_balances db := by
  have hpos : posExchanges { db with exchanges := e :: db.exchanges }
      = posExchanges db := by
    unfold posExchanges
    simp [List.filter_cons, h]
  have hneg : negExchanges { db with exchanges := e :: db.exchanges }
      = negExchanges db := by
    unfold negExchanges
    simp [List.filter_cons, h]
  have hfoo : fooRows { db with exchanges := e :: db.exchanges } = fooRows db := by
    unfold fooRows toParticipantPayments toTeamPayments
    rw [hpos, hneg]
  have hmm : balanceMismatches { db with exchanges := e :: db.exchanges }
      = balanceMismatches db := by
    unfold balanceMismatches foo2
    rw [hfoo]
  refine ⟨fun u => ?_, hmm, ?_⟩
  · unfold expectedOf
    rw [hfoo]
  · unfold _check_balances
    rw [hmm]

/-- C9 witness: adding a zero-amount exchange to the end-to-end scenario
changes nothing in the mismatch rows. -/
theorem c9_witness :
    ((⟨"P", 0, 3, "other"⟩ : Exchange).amount = 0) ∧
    balanceMismatches
        { dbScenario 470 with
            exchanges := ⟨"P", 0, 3, "other"⟩ :: (dbScenario 470).exchanges }
      = balanceMismatches (dbScenario 470) :=
  ⟨rfl, (c9_zero_exchange_no_effect (dbScenario 470) ⟨"P", 0, 3, "other"⟩ rfl).2.1⟩

/-! Claim C10. -/

/-- C10: a slug with no row in `teams` can never appear in the
nonzero-team-balance result, however unbalanced its payments are: the
inner join against `teams` drops such payment rows. -/
theorem c10_unmatched_team_never_reported (db : DB) (s : String)
    (h : ∀ t ∈ db.teams, t.slug ≠ s) :
    ∀ d, (s, d) ∉ teamsWithNonzeroBalance db := by
  intro d hm
  rcases (mem_teamsWithNonzeroBalance db s d).mp hm with ⟨-, -, ⟨t, ht, hts⟩, -⟩
  exact h t ht hts

/-- C10 witness: a ghost team with an unpaired payment of 100 and no
`teams` row is not reported. -/
theorem c10_witness :
    (∀ t ∈ dbGhostTeam.teams, t.slug ≠ "ghost") ∧
    teamDelta dbGhostTeam "ghost" = 100 ∧
    ("ghost", (100 : ℚ)) ∉ teamsWithNonzeroBalance dbGhostTeam := by
  have h : ∀ t ∈ dbGhostTeam.teams, t.slug ≠ "ghost" := by
    intro t ht
    simp [dbGhostTeam, emptyDB] at ht
  exact ⟨h, by with_unfolding_all rfl,
    c10_unmatched_team_never_reported dbGhostTeam "ghost" h 100⟩

end Gratipay
